import Mathlib

/-!
Shallow embedding of the ChibiOS HAL object model:
  * `oop_referenced_object.h` (reference-counted objects), and
  * `hal_base_driver.h` (the stateful base driver class), including the
    older `hal_base_driver.c` implementation of `drvOpen`/`drvClose`
    (the unnamed source file `part_001`).

Machine integers: the C counters (`oop_object_references_t`,
`opencnt`) are `unsigned int` (32 bits); increments are modelled with an
explicit `% 2^32`.  Fatal `osalDbgAssert` violations are modelled as
`none` results.  Virtual-method hooks (`start`, `stop`, `configure`,
`dispose`) belong to the concrete driver; their return codes are
parameters and their invocations are recorded as events, so that
"the hook is invoked exactly once" becomes a statement about the event
trace.  Hooks are not given the ability to mutate the base-class fields:
the claims under study concern only the base-class bookkeeping.
-/

/-- `UINT_MAX + 1` for the 32-bit `unsigned int` counters. -/
def UINT_SUCC : Nat := 2 ^ 32

/-- `HAL_RET_SUCCESS` (`msg_t` value 0). -/
def HAL_RET_SUCCESS : Int := 0

/-- `HAL_DRV_STATE_UNINIT` (hal_base_driver.h line 47). -/
def HAL_DRV_STATE_UNINIT : Nat := 0

/-- `HAL_DRV_STATE_STOPPED` (hal_base_driver.h line 48). -/
def HAL_DRV_STATE_STOPPED : Nat := 1

/-- `HAL_DRV_STATE_READY` (hal_base_driver.h line 49). -/
def HAL_DRV_STATE_READY : Nat := 2

/-- `HAL_DRV_STATE_ACTIVE` (hal_base_driver.h line 50). -/
def HAL_DRV_STATE_ACTIVE : Nat := 3

/-- `HAL_DRV_STATE_ERROR` (hal_base_driver.h line 51). -/
def HAL_DRV_STATE_ERROR : Nat := 4

/-- `HAL_DRV_STATE_STOP`: the name the 2018-era `hal_base_driver.c`
(`part_001`) uses for the stopped state; same state as
`HAL_DRV_STATE_STOPPED`. -/
def HAL_DRV_STATE_STOP : Nat := HAL_DRV_STATE_STOPPED

/-! ## Referenced objects (`oop_referenced_object.h`)

`struct referenced_object`: a vmt pointer (from `__base_object_data`)
plus the `references` counter (`__referenced_object_data`, lines 56-58).
Pointers are modelled as `Nat` identifiers. -/

structure referenced_object where
  vmt : Nat
  references : Nat
  deriving DecidableEq, Repr

/-- Event recording that the dispose machinery ran on the object. -/
inductive RefEvent where
  | disposeCall
  deriving DecidableEq, Repr

/-- Modelled from the spec: `oop_base_object.h` is not under `src/`.
Spec 4.1: `construct(descriptor)` stores the descriptor and returns the
object reference. -/
def __base_object_objinit_impl (obj : referenced_object) (vmt : Nat) :
    referenced_object :=
  { obj with vmt := vmt }

/-- Modelled from the spec: `oop_base_object.h` is not under `src/`.
Spec 4.1: `dispose()` is a no-op hook for leaf types. -/
def __base_object_dispose_impl (obj : referenced_object) :
    referenced_object :=
  obj

/-- `__referenced_object_objinit_impl` (lines 92-99): base-object init,
then `references = 1`. -/
def __referenced_object_objinit_impl (obj : referenced_object) (vmt : Nat) :
    referenced_object :=
  let objp := __base_object_objinit_impl obj vmt
  { objp with references := 1 }

/-- `__referenced_object_dispose_impl` (lines 108-114):
`osalDbgAssert(references == 0)`, then the base-object dispose.
The returned event records that disposal ran. -/
def __referenced_object_dispose_impl (obj : referenced_object) :
    Option (referenced_object × List RefEvent) :=
  if obj.references = 0 then
    some (__base_object_dispose_impl obj, [RefEvent.disposeCall])
  else
    none

/-- `__referenced_object_addref_impl` (lines 123-131): `references++`
(32-bit wrap), then `osalDbgAssert(references != 0, "overflow")`, then
`return ip` — the returned pointer is the argument pointer. -/
def __referenced_object_addref_impl (ip : Nat) (obj : referenced_object) :
    Option (Nat × referenced_object) :=
  let refs := (obj.references + 1) % UINT_SUCC
  if refs = 0 then
    none
  else
    some (ip, { obj with references := refs })

/-- `__referenced_object_getref_impl` (lines 140-144). -/
def __referenced_object_getref_impl (obj : referenced_object) : Nat :=
  obj.references

/-- `__referenced_object_release_impl` (lines 153-163):
`osalDbgAssert(references > 0, "zero references")`; `--references`;
dispose when the result is zero; return the remaining count. -/
def __referenced_object_release_impl (obj : referenced_object) :
    Option (Nat × referenced_object × List RefEvent) :=
  if obj.references = 0 then
    none
  else
    let objp := { obj with references := obj.references - 1 }
    if objp.references = 0 then
      match __referenced_object_dispose_impl objp with
      | none => none
      | some (objp2, evs) => some (objp2.references, objp2, evs)
    else
      some (objp.references, objp, [])

/-- Client calls on a referenced object. -/
inductive RefOp where
  | addref
  | release
  deriving DecidableEq, Repr

/-- Run a sequence of add-reference/release calls, collecting the
dispose events; `none` as soon as any call hits a fatal assertion. -/
def refExec : List RefOp → referenced_object →
    Option (referenced_object × List RefEvent)
  | [], obj => some (obj, [])
  | RefOp.addref :: ops, obj =>
    match __referenced_object_addref_impl obj.vmt obj with
    | none => none
    | some (_, obj1) =>
      match refExec ops obj1 with
      | none => none
      | some (obj2, evs) => some (obj2, evs)
  | RefOp.release :: ops, obj =>
    match __referenced_object_release_impl obj with
    | none => none
    | some (_, obj1, evs1) =>
      match refExec ops obj1 with
      | none => none
      | some (obj2, evs2) => some (obj2, evs1 ++ evs2)

/-- Reference count after running a call sequence from count `r`
(specification-side bookkeeping). -/
def refsAfter : List RefOp → Nat → Nat
  | [], r => r
  | RefOp.addref :: t, r => refsAfter t (r + 1)
  | RefOp.release :: t, r => refsAfter t (r - 1)

/-- The sequence only ever operates on a live object: every call is made
while the count is at least 1. -/
def liveTrace : List RefOp → Nat → Bool
  | [], _ => true
  | RefOp.addref :: t, r => decide (1 ≤ r) && liveTrace t (r + 1)
  | RefOp.release :: t, r => decide (1 ≤ r) && liveTrace t (r - 1)

/-- Number of dispose events in a trace. -/
def countDisposes (evs : List RefEvent) : Nat :=
  evs.length

/-! ## Base driver (`hal_base_driver.h`)

`struct base_driver`: vmt pointer, then `__base_driver_data`.  With
`HAL_USE_MUTUAL_EXCLUSION == FALSE` (lines 137-142) the data is
`__referenced_object_data` (hence the `references` field), `state`,
`opencnt` and `owner`; with the default `TRUE` layout (lines 124-134)
a `mutex` replaces the `references` field.  The mutex is an opaque OSAL
object never touched by the operations under study, so it is kept out
of the record; `references` is kept so that frame statements about it
can be made.  `HAL_USE_REGISTRY` is `FALSE` by default (line 75), so
there is no `id` field.  `owner` is a nullable pointer
(`NULL` = `none`). -/

structure base_driver where
  vmt : Nat
  references : Nat
  state : Nat
  opencnt : Nat
  owner : Option Nat
  deriving DecidableEq, Repr

/-- Events recording invocations of the concrete driver's hooks. -/
inductive DrvEvent where
  | startCall (msg : Int)
  | stopCall
  | configureCall
  deriving DecidableEq, Repr

/-- Modelled from the spec: `oop_base_object.h` is not under `src/`.
Spec 4.1: `construct(descriptor)` stores the descriptor (driver copy of
the base-object init). -/
def __base_object_objinit_impl_drv (obj : base_driver) (vmt : Nat) :
    base_driver :=
  { obj with vmt := vmt }

/-- Modelled from the spec: `oop_base_object.h` is not under `src/`.
Spec 4.1: `dispose()` is a no-op hook (driver copy of the base-object
dispose). -/
def __base_object_dispose_impl_drv (obj : base_driver) : base_driver :=
  obj

/-- `__base_driver_objinit_impl` (hal_base_driver.h lines 199-211):
base-object init, `opencnt = 0`, `owner = NULL`,
`osalMutexObjectInit` (external OSAL state, not in the record); no
registry id.  Note: the function does not write the `state` field. -/
def __base_driver_objinit_impl (obj : base_driver) (vmt : Nat) :
    base_driver :=
  let objp := __base_object_objinit_impl_drv obj vmt
  { objp with opencnt := 0, owner := none }

/-- `__base_driver_dispose_impl` (hal_base_driver.h lines 219-227):
`osalDbgAssert(opencnt == 0, "still opened")`, then the base-object
dispose. -/
def __base_driver_dispose_impl (obj : base_driver) : Option base_driver :=
  if obj.opencnt = 0 then
    some (__base_object_dispose_impl_drv obj)
  else
    none

/-- `drvOpen` (hal_base_driver.h lines 253-262): `if (opencnt++ == 0)`
call `vmt->start(ip)` and return its status, else return
`HAL_RET_SUCCESS`.  The increment is unconditional (32-bit wrap).
`start_msg` is the status the concrete `start` hook would return; the
hook invocation is recorded as an event. -/
def drvOpen (start_msg : Int) (obj : base_driver) :
    Int × base_driver × List DrvEvent :=
  let objp := { obj with opencnt := (obj.opencnt + 1) % UINT_SUCC }
  if obj.opencnt = 0 then
    (start_msg, objp, [DrvEvent.startCall start_msg])
  else
    (HAL_RET_SUCCESS, objp, [])

/-- `drvClose` (hal_base_driver.h lines 273-282):
`osalDbgAssert(opencnt > 0, "not opened")`; `--opencnt`; call
`vmt->stop(ip)` when the result is zero. -/
def drvClose (obj : base_driver) : Option (base_driver × List DrvEvent) :=
  if obj.opencnt = 0 then
    none
  else
    let objp := { obj with opencnt := obj.opencnt - 1 }
    if objp.opencnt = 0 then
      some (objp, [DrvEvent.stopCall])
    else
      some (objp, [])

/-- `drvOpen` of the 2018-era `hal_base_driver.c` (`part_001` lines
56-76): when `opencnt == 0`, call `start`; on success increment
`opencnt` and set state `READY`; on failure leave `opencnt` and set
state `STOP`.  When `opencnt != 0`, return success (no increment in
this version). -/
def drvOpen_c (start_msg : Int) (obj : base_driver) :
    Int × base_driver × List DrvEvent :=
  if obj.opencnt = 0 then
    if start_msg = HAL_RET_SUCCESS then
      (start_msg,
       { obj with opencnt := (obj.opencnt + 1) % UINT_SUCC,
                  state := HAL_DRV_STATE_READY },
       [DrvEvent.startCall start_msg])
    else
      (start_msg, { obj with state := HAL_DRV_STATE_STOP },
       [DrvEvent.startCall start_msg])
  else
    (HAL_RET_SUCCESS, obj, [])

/-- `drvClose` of the 2018-era `hal_base_driver.c` (`part_001` lines
87-96): assert `opencnt > 0`; `--opencnt`; when the result is zero set
state `STOP` and call `stop`. -/
def drvClose_c (obj : base_driver) : Option (base_driver × List DrvEvent) :=
  if obj.opencnt = 0 then
    none
  else
    let objp := { obj with opencnt := obj.opencnt - 1 }
    if objp.opencnt = 0 then
      some ({ objp with state := HAL_DRV_STATE_STOP },
            [DrvEvent.stopCall])
    else
      some (objp, [])

/-- `drvConfigureX` (hal_base_driver.h lines 298-305):
`osalDbgAssert(opencnt > 0, "not opened")`, then return
`vmt->configure(ip, config)`.  `configure_msg` is the status the
concrete hook would return; the delegation is recorded as an event. -/
def drvConfigureX (configure_msg : Int) (obj : base_driver) :
    Option (Int × List DrvEvent) :=
  if obj.opencnt = 0 then
    none
  else
    some (configure_msg, [DrvEvent.configureCall])

/-- `drvGetStateX` (hal_base_driver.h lines 329-333). -/
def drvGetStateX (obj : base_driver) : Nat :=
  obj.state

/-- `drvSetStateX` (hal_base_driver.h lines 342-345). -/
def drvSetStateX (obj : base_driver) (state : Nat) : base_driver :=
  { obj with state := state }

/-- `drvGetOwnerX` (hal_base_driver.h lines 354-358). -/
def drvGetOwnerX (obj : base_driver) : Option Nat :=
  obj.owner

/-- `drvSetOwnerX` (hal_base_driver.h lines 367-371). -/
def drvSetOwnerX (obj : base_driver) (owner : Option Nat) : base_driver :=
  { obj with owner := owner }

/-- Client calls on a driver: an open (carrying the status the concrete
`start` hook would return if invoked) or a close. -/
inductive DrvOp where
  | openOp (msg : Int)
  | closeOp
  deriving DecidableEq, Repr

/-- Run a sequence of open/close calls through `drvOpen`/`drvClose`,
collecting hook events; `none` as soon as a call hits a fatal
assertion. -/
def drvExec : List DrvOp → base_driver →
    Option (base_driver × List DrvEvent)
  | [], obj => some (obj, [])
  | DrvOp.openOp m :: ops, obj =>
    let r := drvOpen m obj
    match drvExec ops r.2.1 with
    | none => none
    | some (obj2, evs) => some (obj2, r.2.2 ++ evs)
  | DrvOp.closeOp :: ops, obj =>
    match drvClose obj with
    | none => none
    | some (obj1, evs1) =>
      match drvExec ops obj1 with
      | none => none
      | some (obj2, evs2) => some (obj2, evs1 ++ evs2)

/-- Open count after running a call sequence from count `c`
(specification-side bookkeeping). -/
def opencntAfter : List DrvOp → Nat → Nat
  | [], c => c
  | DrvOp.openOp _ :: t, c => opencntAfter t (c + 1)
  | DrvOp.closeOp :: t, c => opencntAfter t (c - 1)

/-- Every close in the sequence is matched by a preceding open: each
close executes while the running open count is positive. -/
def prefixBalanced : List DrvOp → Nat → Bool
  | [], _ => true
  | DrvOp.openOp _ :: t, c => prefixBalanced t (c + 1)
  | DrvOp.closeOp :: t, c => decide (0 < c) && prefixBalanced t (c - 1)

/-- Number of 0-to-1 open-count transitions (opens executed while the
running count is zero).  Each maximal run of opens without an
intervening full close begins with exactly one such open, so this is
also the number of maximal runs. -/
def upTransAux : List DrvOp → Nat → Nat
  | [], _ => 0
  | DrvOp.openOp _ :: t, c =>
    (if c = 0 then 1 else 0) + upTransAux t (c + 1)
  | DrvOp.closeOp :: t, c => upTransAux t (c - 1)

/-- Number of 1-to-0 open-count transitions (closes executed while the
running count is one, i.e. the close that ends a maximal run by
bringing the count back to zero). -/
def downTransAux : List DrvOp → Nat → Nat
  | [], _ => 0
  | DrvOp.openOp _ :: t, c => downTransAux t (c + 1)
  | DrvOp.closeOp :: t, c =>
    (if c = 1 then 1 else 0) + downTransAux t (c - 1)

/-- Number of maximal runs of opens without an intervening full close,
counted by their opening 0-to-1 transition. -/
def numMaximalRuns (t : List DrvOp) : Nat :=
  upTransAux t 0

/-- Number of `start`-hook invocations in an event trace. -/
def countStarts (evs : List DrvEvent) : Nat :=
  (evs.filter fun e =>
    match e with
    | DrvEvent.startCall _ => true
    | _ => false).length

/-- Number of `stop`-hook invocations in an event trace. -/
def countStops (evs : List DrvEvent) : Nat :=
  (evs.filter fun e =>
    match e with
    | DrvEvent.stopCall => true
    | _ => false).length

/-- Number of releases executed while the running count is exactly 1,
i.e. the releases that bring the count to zero. -/
def zeroHits : List RefOp → Nat → Nat
  | [], _ => 0
  | RefOp.addref :: t, r => zeroHits t (r + 1)
  | RefOp.release :: t, r => (if r = 1 then 1 else 0) + zeroHits t (r - 1)


/-! ## Helper lemmas: single-call behaviour of the reference counter -/

theorem addref_step (ip : Nat) (obj : referenced_object)
    (h : obj.references + 1 < UINT_SUCC) :
    __referenced_object_addref_impl ip obj
      = some (ip, { obj with references := obj.references + 1 }) := by
  have h0 : ¬ ((obj.references + 1) % UINT_SUCC = 0) := by
    rw [Nat.mod_eq_of_lt h]
    omega
  simp [__referenced_object_addref_impl, h0, Nat.mod_eq_of_lt h]

theorem release_step_one (obj : referenced_object)
    (h : obj.references = 1) :
    __referenced_object_release_impl obj
      = some (0, { obj with references := 0 },
              [RefEvent.disposeCall]) := by
  simp [__referenced_object_release_impl,
    __referenced_object_dispose_impl, __base_object_dispose_impl, h]

theorem release_step_pos (obj : referenced_object)
    (h : 1 < obj.references) :
    __referenced_object_release_impl obj
      = some (obj.references - 1,
              { obj with references := obj.references - 1 }, []) := by
  have h0 : ¬ obj.references = 0 := by omega
  have h1 : ¬ obj.references - 1 = 0 := by omega
  simp [__referenced_object_release_impl, h0, h1]

theorem refExec_cons_addref (t : List RefOp) (obj : referenced_object)
    (h : obj.references + 1 < UINT_SUCC) :
    refExec (RefOp.addref :: t) obj
      = refExec t { obj with references := obj.references + 1 } := by
  cases hrq : refExec t { obj with references := obj.references + 1 } with
  | none => simp [refExec, addref_step obj.vmt obj h, hrq]
  | some q =>
    obtain ⟨a, b⟩ := q
    simp [refExec, addref_step obj.vmt obj h, hrq]

theorem refExec_cons_release_pos (t : List RefOp)
    (obj : referenced_object) (h : 1 < obj.references) :
    refExec (RefOp.release :: t) obj
      = refExec t { obj with references := obj.references - 1 } := by
  cases hrq : refExec t { obj with references := obj.references - 1 } with
  | none => simp [refExec, release_step_pos obj h, hrq]
  | some q =>
    obtain ⟨a, b⟩ := q
    simp [refExec, release_step_pos obj h, hrq]

theorem refExec_cons_release_one (t : List RefOp)
    (obj : referenced_object) (h : obj.references = 1) :
    refExec (RefOp.release :: t) obj
      = match refExec t { obj with references := obj.references - 1 } with
        | none => none
        | some (obj2, evs2) => some (obj2, RefEvent.disposeCall :: evs2) := by
  have e : obj.references - 1 = 0 := by omega
  rw [e]
  cases hrq : refExec t { obj with references := 0 } with
  | none => simp [refExec, release_step_one obj h, hrq]
  | some q =>
    obtain ⟨a, b⟩ := q
    simp [refExec, release_step_one obj h, hrq]

theorem countDisposes_cons (e : RefEvent) (evs : List RefEvent) :
    countDisposes (e :: evs) = 1 + countDisposes evs := by
  simp [countDisposes]
  omega

/-- Executing a live call sequence on a referenced object never hits a
fatal assertion, the final count is the bookkeeping count, and the
number of dispose invocations is the number of count-reaches-zero
releases. -/
theorem refExec_counts : ∀ (t : List RefOp) (obj : referenced_object),
    liveTrace t obj.references = true →
    obj.references + t.length < UINT_SUCC →
    ∃ q : referenced_object × List RefEvent, refExec t obj = some q ∧
      q.1.references = refsAfter t obj.references ∧
      countDisposes q.2 = zeroHits t obj.references
  | [], obj, _, _ => ⟨(obj, []), rfl, rfl, rfl⟩
  | RefOp.addref :: t, obj, hl, hlen => by
    simp only [liveTrace, Bool.and_eq_true, decide_eq_true_eq] at hl
    simp only [List.length_cons] at hlen
    have hinc : obj.references + 1 < UINT_SUCC := by omega
    obtain ⟨q, hq, hrefs, hdisp⟩ :=
      refExec_counts t { obj with references := obj.references + 1 }
        hl.2 (by show obj.references + 1 + t.length < UINT_SUCC; omega)
    refine ⟨q, ?_, ?_, ?_⟩
    · rw [refExec_cons_addref t obj hinc, hq]
    · simpa [refsAfter] using hrefs
    · simpa [zeroHits] using hdisp
  | RefOp.release :: t, obj, hl, hlen => by
    simp only [liveTrace, Bool.and_eq_true, decide_eq_true_eq] at hl
    simp only [List.length_cons] at hlen
    obtain ⟨q, hq, hrefs, hdisp⟩ :=
      refExec_counts t { obj with references := obj.references - 1 }
        hl.2 (by show obj.references - 1 + t.length < UINT_SUCC; omega)
    by_cases h1 : obj.references = 1
    · refine ⟨(q.1, RefEvent.disposeCall :: q.2), ?_, ?_, ?_⟩
      · rw [refExec_cons_release_one t obj h1, hq]
      · simpa [refsAfter] using hrefs
      · rw [countDisposes_cons, hdisp]
        simp [zeroHits, h1]
    · have hgt : 1 < obj.references := by omega
      refine ⟨q, ?_, ?_, ?_⟩
      · rw [refExec_cons_release_pos t obj hgt, hq]
      · simpa [refsAfter] using hrefs
      · rw [hdisp]
        simp [zeroHits, h1]

/-- On a live sequence, the count reaches zero at most once, exactly
when the final count is zero. -/
theorem zeroHits_live : ∀ (t : List RefOp) (r : Nat), 1 ≤ r →
    liveTrace t r = true →
    zeroHits t r = if refsAfter t r = 0 then 1 else 0
  | [], r, hr, _ => by
    have h0 : ¬ (refsAfter ([] : List RefOp) r = 0) := by
      simp only [refsAfter]
      omega
    simp [zeroHits, h0]
  | RefOp.addref :: t, r, hr, hl => by
    simp only [liveTrace, Bool.and_eq_true, decide_eq_true_eq] at hl
    simpa [zeroHits, refsAfter] using zeroHits_live t (r + 1) (by omega) hl.2
  | RefOp.release :: t, r, hr, hl => by
    simp only [liveTrace, Bool.and_eq_true, decide_eq_true_eq] at hl
    by_cases h1 : r = 1
    · subst h1
      cases t with
      | nil => simp [zeroHits, refsAfter]
      | cons op t' =>
        exfalso
        cases op <;> simp [liveTrace] at hl
    · have := zeroHits_live t (r - 1) (by omega) hl.2
      simp [zeroHits, refsAfter, h1, this]

/-! ## Helper lemmas: single-call behaviour of the driver counters -/

theorem countStarts_cons_start (m : Int) (evs : List DrvEvent) :
    countStarts (DrvEvent.startCall m :: evs) = 1 + countStarts evs := by
  simp [countStarts]
  omega

theorem countStarts_cons_stop (evs : List DrvEvent) :
    countStarts (DrvEvent.stopCall :: evs) = countStarts evs := by
  simp [countStarts]

theorem countStops_cons_stop (evs : List DrvEvent) :
    countStops (DrvEvent.stopCall :: evs) = 1 + countStops evs := by
  simp [countStops]
  omega

theorem countStops_cons_start (m : Int) (evs : List DrvEvent) :
    countStops (DrvEvent.startCall m :: evs) = countStops evs := by
  simp [countStops]

theorem drvExec_cons_open_zero (m : Int) (ops : List DrvOp)
    (obj : base_driver) (h0 : obj.opencnt = 0) :
    drvExec (DrvOp.openOp m :: ops) obj
      = match drvExec ops { obj with opencnt := obj.opencnt + 1 } with
        | none => none
        | some (obj2, evs) => some (obj2, DrvEvent.startCall m :: evs) := by
  have h1 : (1 : Nat) % UINT_SUCC = 1 := by decide
  cases hrq : drvExec ops { obj with opencnt := obj.opencnt + 1 } with
  | none =>
    simp only [h0] at hrq
    simp [drvExec, drvOpen, h1, h0, hrq]
  | some q =>
    obtain ⟨a, b⟩ := q
    simp only [h0] at hrq
    simp [drvExec, drvOpen, h1, h0, hrq]

theorem drvExec_cons_open_pos (m : Int) (ops : List DrvOp)
    (obj : base_driver) (h0 : 0 < obj.opencnt)
    (h : obj.opencnt + 1 < UINT_SUCC) :
    drvExec (DrvOp.openOp m :: ops) obj
      = drvExec ops { obj with opencnt := obj.opencnt + 1 } := by
  have h1 : (obj.opencnt + 1) % UINT_SUCC = obj.opencnt + 1 :=
    Nat.mod_eq_of_lt h
  have h0' : ¬ obj.opencnt = 0 := by omega
  cases hrq : drvExec ops { obj with opencnt := obj.opencnt + 1 } with
  | none => simp [drvExec, drvOpen, h1, h0', hrq]
  | some q =>
    obtain ⟨a, b⟩ := q
    simp [drvExec, drvOpen, h1, h0', hrq]

theorem drvExec_cons_close_one (ops : List DrvOp) (obj : base_driver)
    (h : obj.opencnt = 1) :
    drvExec (DrvOp.closeOp :: ops) obj
      = match drvExec ops { obj with opencnt := obj.opencnt - 1 } with
        | none => none
        | some (obj2, evs) => some (obj2, DrvEvent.stopCall :: evs) := by
  have h0 : ¬ obj.opencnt = 0 := by omega
  cases hrq : drvExec ops { obj with opencnt := obj.opencnt - 1 } with
  | none =>
    simp only [h, Nat.sub_self] at hrq
    simp [drvExec, drvClose, h, hrq]
  | some q =>
    obtain ⟨a, b⟩ := q
    simp only [h, Nat.sub_self] at hrq
    simp [drvExec, drvClose, h, hrq]

theorem drvExec_cons_close_pos (ops : List DrvOp) (obj : base_driver)
    (h : 1 < obj.opencnt) :
    drvExec (DrvOp.closeOp :: ops) obj
      = drvExec ops { obj with opencnt := obj.opencnt - 1 } := by
  have h0 : ¬ obj.opencnt = 0 := by omega
  have h1 : ¬ obj.opencnt - 1 = 0 := by omega
  cases hrq : drvExec ops { obj with opencnt := obj.opencnt - 1 } with
  | none => simp [drvExec, drvClose, h0, h1, hrq]
  | some q =>
    obtain ⟨a, b⟩ := q
    simp [drvExec, drvClose, h0, h1, hrq]

/-- Executing a prefix-balanced open/close sequence never hits a fatal
assertion; the `start` hook is invoked exactly on the 0-to-1
transitions and the `stop` hook exactly on the 1-to-0 transitions. -/
theorem drvExec_counts : ∀ (t : List DrvOp) (obj : base_driver),
    prefixBalanced t obj.opencnt = true →
    obj.opencnt + t.length < UINT_SUCC →
    ∃ q : base_driver × List DrvEvent, drvExec t obj = some q ∧
      q.1.opencnt = opencntAfter t obj.opencnt ∧
      countStarts q.2 = upTransAux t obj.opencnt ∧
      countStops q.2 = downTransAux t obj.opencnt
  | [], obj, _, _ => ⟨(obj, []), rfl, rfl, rfl, rfl⟩
  | DrvOp.openOp m :: t, obj, hb, hlen => by
    simp only [prefixBalanced] at hb
    simp only [List.length_cons] at hlen
    have hinc : obj.opencnt + 1 < UINT_SUCC := by omega
    obtain ⟨q, hq, hcnt, hst, hsp⟩ :=
      drvExec_counts t { obj with opencnt := obj.opencnt + 1 }
        hb (by show obj.opencnt + 1 + t.length < UINT_SUCC; omega)
    by_cases h0 : obj.opencnt = 0
    · refine ⟨(q.1, DrvEvent.startCall m :: q.2), ?_, ?_, ?_, ?_⟩
      · rw [drvExec_cons_open_zero m t obj h0, hq]
      · simpa [opencntAfter] using hcnt
      · rw [countStarts_cons_start, hst]
        simp [upTransAux, h0]
      · rw [countStops_cons_start, hsp]
        simp [downTransAux]
    · refine ⟨q, ?_, ?_, ?_, ?_⟩
      · rw [drvExec_cons_open_pos m t obj (by omega) hinc, hq]
      · simpa [opencntAfter] using hcnt
      · rw [hst]
        simp [upTransAux, h0]
      · rw [hsp]
        simp [downTransAux]
  | DrvOp.closeOp :: t, obj, hb, hlen => by
    simp only [prefixBalanced, Bool.and_eq_true, decide_eq_true_eq] at hb
    simp only [List.length_cons] at hlen
    obtain ⟨q, hq, hcnt, hst, hsp⟩ :=
      drvExec_counts t { obj with opencnt := obj.opencnt - 1 }
        hb.2 (by show obj.opencnt - 1 + t.length < UINT_SUCC; omega)
    by_cases h1 : obj.opencnt = 1
    · refine ⟨(q.1, DrvEvent.stopCall :: q.2), ?_, ?_, ?_, ?_⟩
      · rw [drvExec_cons_close_one t obj h1, hq]
      · simpa [opencntAfter] using hcnt
      · rw [countStarts_cons_stop, hst]
        simp [upTransAux]
      · rw [countStops_cons_stop, hsp]
        simp [downTransAux, h1]
    · have hgt : 1 < obj.opencnt := by omega
      refine ⟨q, ?_, ?_, ?_, ?_⟩
      · rw [drvExec_cons_close_pos t obj hgt, hq]
      · simpa [opencntAfter] using hcnt
      · rw [hst]
        simp [upTransAux]
      · rw [hsp]
        simp [downTransAux, h1]

/-! ## Claim theorems -/

/-- C1: for every balanced sequence of drvOpen/drvClose calls (every
close matched by a preceding open), execution hits no fatal assertion,
the concrete `start` hook is invoked exactly once per maximal run of
opens without an intervening full close (each such run begins with the
run's 0-to-1 open-count transition), the concrete `stop` hook is
invoked exactly once when a close brings the open count back to zero
(the 1-to-0 transitions), and the numbers of `start`/`stop` invocations
never exceed the numbers of 0-to-1 / 1-to-0 transitions. -/
theorem drv_open_close_hook_discipline (t : List DrvOp)
    (obj : base_driver) (h0 : obj.opencnt = 0)
    (hb : prefixBalanced t 0 = true) (hlen : t.length < UINT_SUCC) :
    ∃ q : base_driver × List DrvEvent, drvExec t obj = some q ∧
      countStarts q.2 = numMaximalRuns t ∧
      countStops q.2 = downTransAux t 0 ∧
      countStarts q.2 ≤ upTransAux t 0 ∧
      countStops q.2 ≤ downTransAux t 0 := by
  obtain ⟨q, hq, _, hst, hsp⟩ :=
    drvExec_counts t obj (by rw [h0]; exact hb) (by omega)
  rw [h0] at hst hsp
  exact ⟨q, hq, by rw [hst]; rfl, hsp,
    le_of_eq hst, le_of_eq hsp⟩

/-- Concrete balanced call sequence: two opens followed by two
closes. -/
def tC1 : List DrvOp :=
  [DrvOp.openOp 0, DrvOp.openOp 0, DrvOp.closeOp, DrvOp.closeOp]

/-- A freshly constructed driver: state STOPPED, open count zero, no
owner. -/
def drvC1 : base_driver :=
  { vmt := 0, references := 1, state := HAL_DRV_STATE_STOPPED,
    opencnt := 0, owner := none }

theorem drv_open_close_hook_discipline_witness :
    drvC1.opencnt = 0 ∧ prefixBalanced tC1 0 = true ∧
    tC1.length < UINT_SUCC ∧
    ∃ q : base_driver × List DrvEvent, drvExec tC1 drvC1 = some q ∧
      countStarts q.2 = numMaximalRuns tC1 ∧
      countStops q.2 = downTransAux tC1 0 ∧
      countStarts q.2 ≤ upTransAux tC1 0 ∧
      countStops q.2 ≤ downTransAux tC1 0 :=
  ⟨rfl, by decide, by decide,
   drv_open_close_hook_discipline tC1 drvC1 rfl (by decide) (by decide)⟩

/-- A driver in the STOPPED state with open count zero. -/
def drvStopped : base_driver :=
  { vmt := 0, references := 1, state := HAL_DRV_STATE_STOPPED,
    opencnt := 0, owner := none }

/-- C2 (code bug): on a stopped driver with open count zero whose
`start` hook fails with code -4, the inline `drvOpen` of
`hal_base_driver.h` propagates -4 but leaves the open count
incremented to 1 instead of rolling it back to its pre-call value 0, so
an immediate retry returns `HAL_RET_SUCCESS` without re-invoking
`start`; the `hal_base_driver.c` implementation (`part_001`) of the
same function rolls the count back to 0 and leaves the driver state
stopped, which is what the claim (and the spec's scenario) states. -/
theorem drvOpen_failed_start_no_rollback :
    (drvOpen (-4) drvStopped).1 = -4 ∧
    (drvOpen (-4) drvStopped).2.2 = [DrvEvent.startCall (-4)] ∧
    drvStopped.opencnt = 0 ∧
    (drvOpen (-4) drvStopped).2.1.opencnt = 1 ∧
    (drvOpen 0 ((drvOpen (-4) drvStopped).2.1)).1 = HAL_RET_SUCCESS ∧
    (drvOpen 0 ((drvOpen (-4) drvStopped).2.1)).2.2 = [] ∧
    (drvOpen_c (-4) drvStopped).1 = -4 ∧
    (drvOpen_c (-4) drvStopped).2.1.opencnt = 0 ∧
    (drvOpen_c (-4) drvStopped).2.1.state = HAL_DRV_STATE_STOPPED := by
  decide

/-- C3: construction initializes the reference count to 1; running any
sequence of add-reference/release calls that always operates on a live
object hits no fatal assertion, disposes exactly once if the count ends
at zero and never while it is positive; release of an object at
count 1 disposes synchronously and returns zero; release of an object
already at count zero is a fatal assertion. -/
theorem referenced_object_lifecycle (obj0 o1 oz : referenced_object)
    (v : Nat) (t : List RefOp) (hl : liveTrace t 1 = true)
    (hlen : 1 + t.length < UINT_SUCC)
    (ho1 : o1.references = 1) (hoz : oz.references = 0) :
    (__referenced_object_objinit_impl obj0 v).references = 1 ∧
    (∃ q : referenced_object × List RefEvent,
      refExec t (__referenced_object_objinit_impl obj0 v) = some q ∧
      q.1.references = refsAfter t 1 ∧
      countDisposes q.2 = (if refsAfter t 1 = 0 then 1 else 0)) ∧
    __referenced_object_release_impl o1
      = some (0, { o1 with references := 0 }, [RefEvent.disposeCall]) ∧
    __referenced_object_release_impl oz = none := by
  have e : (__referenced_object_objinit_impl obj0 v).references = 1 := rfl
  refine ⟨e, ?_, release_step_one o1 ho1, ?_⟩
  · obtain ⟨q, hq, hrefs, hdisp⟩ :=
      refExec_counts t (__referenced_object_objinit_impl obj0 v)
        (by rw [e]; exact hl) (by rw [e]; omega)
    rw [e] at hrefs hdisp
    rw [zeroHits_live t 1 (by omega) hl] at hdisp
    exact ⟨q, hq, hrefs, hdisp⟩
  · simp [__referenced_object_release_impl, hoz]

/-- Concrete live, balanced reference trace: one extra reference taken
and released, then the creator's release. -/
def tC3 : List RefOp := [RefOp.addref, RefOp.release, RefOp.release]

theorem referenced_object_lifecycle_witness :
    liveTrace tC3 1 = true ∧ 1 + tC3.length < UINT_SUCC ∧
    ((1 : Nat) = 1) ∧ ((0 : Nat) = 0) ∧
    ((__referenced_object_objinit_impl ⟨0, 5⟩ 3).references = 1 ∧
     (∃ q : referenced_object × List RefEvent,
       refExec tC3 (__referenced_object_objinit_impl ⟨0, 5⟩ 3) = some q ∧
       q.1.references = refsAfter tC3 1 ∧
       countDisposes q.2 = (if refsAfter tC3 1 = 0 then 1 else 0)) ∧
     __referenced_object_release_impl ⟨7, 1⟩
       = some (0, { vmt := 7, references := 0 }, [RefEvent.disposeCall]) ∧
     __referenced_object_release_impl ⟨9, 0⟩ = none) :=
  ⟨by decide, by decide, rfl, rfl,
   referenced_object_lifecycle ⟨0, 5⟩ ⟨7, 1⟩ ⟨9, 0⟩ 3 tC3
     (by decide) (by decide) rfl rfl⟩

/-- C4: on a driver whose open count is at least 1, `drvOpen` returns
`HAL_RET_SUCCESS` immediately without invoking the `start` hook; and
whenever any `drvOpen` call does invoke the `start` hook, the open
count at that call was zero. -/
theorem drvOpen_when_already_open (m m2 : Int) (obj obj2 : base_driver)
    (h : 0 < obj.opencnt) (h2 : (drvOpen m2 obj2).2.2 ≠ []) :
    (drvOpen m obj).1 = HAL_RET_SUCCESS ∧
    (drvOpen m obj).2.2 = [] ∧
    obj2.opencnt = 0 := by
  have h0 : ¬ obj.opencnt = 0 := by omega
  refine ⟨by simp [drvOpen, h0], by simp [drvOpen, h0], ?_⟩
  by_contra hne
  exact h2 (by simp [drvOpen, hne])

/-- A driver already open once. -/
def drvOpenOnce : base_driver :=
  { vmt := 0, references := 1, state := HAL_DRV_STATE_READY,
    opencnt := 1, owner := none }

theorem drvOpen_when_already_open_witness :
    0 < drvOpenOnce.opencnt ∧
    (drvOpen (-7) drvStopped).2.2 ≠ [] ∧
    ((drvOpen 5 drvOpenOnce).1 = HAL_RET_SUCCESS ∧
     (drvOpen 5 drvOpenOnce).2.2 = [] ∧
     drvStopped.opencnt = 0) :=
  ⟨by decide, by decide,
   drvOpen_when_already_open 5 (-7) drvOpenOnce drvStopped
     (by decide) (by decide)⟩

/-- C5: `drvClose` on a driver with open count zero is a fatal
assertion, never a silent no-op; on a driver with positive open count
it decrements the count and invokes the `stop` hook exactly when the
decremented count is zero. -/
theorem drvClose_guard_and_stop (obj objz : base_driver)
    (h : 0 < obj.opencnt) (hz : objz.opencnt = 0) :
    drvClose objz = none ∧
    ∃ q : base_driver × List DrvEvent, drvClose obj = some q ∧
      q.1.opencnt = obj.opencnt - 1 ∧
      (q.1.opencnt = 0 → q.2 = [DrvEvent.stopCall]) ∧
      (q.1.opencnt ≠ 0 → q.2 = []) := by
  have h0 : ¬ obj.opencnt = 0 := by omega
  refine ⟨by simp [drvClose, hz], ?_⟩
  by_cases h1 : obj.opencnt - 1 = 0
  · exact ⟨({ obj with opencnt := obj.opencnt - 1 },
           [DrvEvent.stopCall]),
      by simp [drvClose, h0, h1], rfl, fun _ => rfl,
      fun hc => absurd h1 hc⟩
  · exact ⟨({ obj with opencnt := obj.opencnt - 1 }, []),
      by simp [drvClose, h0, h1], rfl,
      fun hc => absurd hc h1, fun _ => rfl⟩

theorem drvClose_guard_and_stop_witness :
    0 < drvOpenOnce.opencnt ∧ drvStopped.opencnt = 0 ∧
    (drvClose drvStopped = none ∧
     ∃ q : base_driver × List DrvEvent, drvClose drvOpenOnce = some q ∧
       q.1.opencnt = drvOpenOnce.opencnt - 1 ∧
       (q.1.opencnt = 0 → q.2 = [DrvEvent.stopCall]) ∧
       (q.1.opencnt ≠ 0 → q.2 = [])) :=
  ⟨by decide, rfl,
   drvClose_guard_and_stop drvOpenOnce drvStopped (by decide) rfl⟩

/-- C6: add-reference on an object whose count is at the representable
maximum of the 32-bit counter is a fatal assertion (the wrapped count
never re-enters normal operation); for every count below the maximum,
add-reference increments the count by one and returns the very pointer
it was given. -/
theorem addref_overflow_fatal (ip : Nat) (omax obelow : referenced_object)
    (hmax : omax.references = UINT_SUCC - 1)
    (hbelow : obelow.references + 1 < UINT_SUCC) :
    __referenced_object_addref_impl ip omax = none ∧
    __referenced_object_addref_impl ip obelow
      = some (ip, { obelow with references := obelow.references + 1 }) := by
  refine ⟨?_, addref_step ip obelow hbelow⟩
  have e : UINT_SUCC - 1 + 1 = UINT_SUCC := by decide
  simp [__referenced_object_addref_impl, hmax, e, Nat.mod_self]

theorem addref_overflow_fatal_witness :
    (⟨2, UINT_SUCC - 1⟩ : referenced_object).references = UINT_SUCC - 1 ∧
    (⟨2, 1⟩ : referenced_object).references + 1 < UINT_SUCC ∧
    (__referenced_object_addref_impl 6 ⟨2, UINT_SUCC - 1⟩ = none ∧
     __referenced_object_addref_impl 6 ⟨2, 1⟩
       = some (6, { vmt := 2, references := 2 })) :=
  ⟨rfl, by decide,
   addref_overflow_fatal 6 ⟨2, UINT_SUCC - 1⟩ ⟨2, 1⟩ rfl (by decide)⟩

/-- C7: `drvConfigureX` on a driver with open count zero is a fatal
assertion; on a driver with positive open count it delegates to the
concrete `configure` hook and returns the hook's status. -/
theorem drvConfigureX_guard (r rz : Int) (obj objz : base_driver)
    (h : 0 < obj.opencnt) (hz : objz.opencnt = 0) :
    drvConfigureX rz objz = none ∧
    drvConfigureX r obj = some (r, [DrvEvent.configureCall]) := by
  have h0 : ¬ obj.opencnt = 0 := by omega
  exact ⟨by simp [drvConfigureX, hz], by simp [drvConfigureX, h0]⟩

theorem drvConfigureX_guard_witness :
    0 < drvOpenOnce.opencnt ∧ drvStopped.opencnt = 0 ∧
    (drvConfigureX (-3) drvStopped = none ∧
     drvConfigureX 11 drvOpenOnce
       = some (11, [DrvEvent.configureCall])) :=
  ⟨by decide, rfl,
   drvConfigureX_guard 11 (-3) drvOpenOnce drvStopped (by decide) rfl⟩

/-- C8: disposing a driver whose open count is nonzero is a fatal
assertion; only with open count zero does the dispose operation
delegate to the ancestor (base-object) dispose. -/
theorem base_driver_dispose_guard (obj objz : base_driver)
    (h : obj.opencnt ≠ 0) (hz : objz.opencnt = 0) :
    __base_driver_dispose_impl obj = none ∧
    __base_driver_dispose_impl objz
      = some (__base_object_dispose_impl_drv objz) :=
  ⟨by simp [__base_driver_dispose_impl, h],
   by simp [__base_driver_dispose_impl, hz]⟩

theorem base_driver_dispose_guard_witness :
    drvOpenOnce.opencnt ≠ 0 ∧ drvStopped.opencnt = 0 ∧
    (__base_driver_dispose_impl drvOpenOnce = none ∧
     __base_driver_dispose_impl drvStopped
       = some (__base_object_dispose_impl_drv drvStopped)) :=
  ⟨by decide, rfl,
   base_driver_dispose_guard drvOpenOnce drvStopped (by decide) rfl⟩

/-- A driver whose state field holds READY before construction runs
(for instance reused memory). -/
def drvPre : base_driver :=
  { vmt := 0, references := 1, state := HAL_DRV_STATE_READY,
    opencnt := 3, owner := some 7 }

/-- C9 counterexample: `__base_driver_objinit_impl` does not write the
`state` field, so a driver whose state field held READY before
construction is not left in the STOPPED state by construction. -/
theorem objinit_state_unchanged_cex :
    (__base_driver_objinit_impl drvPre 5).state ≠ HAL_DRV_STATE_STOPPED ∧
    (__base_driver_objinit_impl drvPre 5).state = HAL_DRV_STATE_READY := by
  decide

/-- C9 (amended): construction (`__base_driver_objinit_impl`) sets the
open count to zero, clears the owner and stores the vmt, but leaves the
`state` field (and the reference count) unchanged: it does not itself
put the driver in the STOPPED state. -/
theorem objinit_fields (obj : base_driver) (v : Nat) :
    (__base_driver_objinit_impl obj v).opencnt = 0 ∧
    (__base_driver_objinit_impl obj v).owner = none ∧
    (__base_driver_objinit_impl obj v).vmt = v ∧
    (__base_driver_objinit_impl obj v).state = obj.state ∧
    (__base_driver_objinit_impl obj v).references = obj.references :=
  ⟨rfl, rfl, rfl, rfl, rfl⟩

/-- C10: `drvSetStateX` changes only the state field and `drvSetOwnerX`
changes only the owner field; the reference count, the open count and
the vmt (method-table) pointer are unchanged by both. -/
theorem drv_set_state_owner_frame (obj : base_driver) (s : Nat)
    (o : Option Nat) :
    (drvSetStateX obj s).state = s ∧
    (drvSetStateX obj s).references = obj.references ∧
    (drvSetStateX obj s).opencnt = obj.opencnt ∧
    (drvSetStateX obj s).vmt = obj.vmt ∧
    (drvSetStateX obj s).owner = obj.owner ∧
    (drvSetOwnerX obj o).owner = o ∧
    (drvSetOwnerX obj o).references = obj.references ∧
    (drvSetOwnerX obj o).opencnt = obj.opencnt ∧
    (drvSetOwnerX obj o).vmt = obj.vmt ∧
    (drvSetOwnerX obj o).state = obj.state :=
  ⟨rfl, rfl, rfl, rfl, rfl, rfl, rfl, rfl, rfl, rfl⟩
